import Mathlib

/-!
# AliPhysics: dielectron configuration macro and D0 daughter cut

Shallow embedding of

* `PWGDQ/dielectron/macrosLMEE/ESDonlyTasks/ConfigLMEEPbPb2011.C`
  (the selector from a cut-definition index to a PID set, a centrality set and a
  rejection flag, the wiring of the cut filters and the Monte-Carlo signals), and
* `PWGLF/RESONANCES/AliRsnCutDaughterD0.cxx` (the constructor and `IsSelected`).

`Int_t` is modelled by `Int` (the code does no arithmetic on the index), `Double_t` by `ℚ`:
the code only compares doubles, and the comparison of finite doubles is the comparison of
the rationals they denote. Deviations that are NaN are covered by `Deviation` and
`pidDecisionNaN`.
-/

namespace LMEE

/-! ## Data model of the configuration macro -/

/-- Enumerators of `LMEECutLib` named by the macro. The library is outside the sources, so
their numeric values are parameters of the embedding. -/
structure LMEECutLib where
  kPbPb2011TPCandTOF : Int
  kPbPb2011TPCandTOFwide : Int
  kPbPb2011Central : Int
  kPbPb2011SemiCentral : Int
  kPbPb2011Peripheral : Int
  deriving DecidableEq, Repr

/-- Line 5: the global `names`. -/
def names : String :=
  "noPairing;TPCTOFCentnoRej;TPCTOFSemiCentnoRej;TPCTOFPerinoRej;TPCTOFCent;TPCTOFSemiCent;TPCTOFPeri;TPCTOFCentnoRejTight;TPCTOFCentTight;TPCTOFCentPhiV;TPCTOFSemiCentPhiV;TPCTOFPeriPhiV;TPCTOFCentOA;TPCTOFSemiCentOA;TPCTOFPeriOA"

/-- Splitting of a character list at a separator; `cur` is the token read so far, reversed. -/
def tokenizeAux (sep : Char) : List Char → List Char → List (List Char)
  | [], cur => [cur.reverse]
  | c :: cs, cur =>
    if c = sep then cur.reverse :: tokenizeAux sep cs [] else tokenizeAux sep cs (c :: cur)

/-- The call `TString::Tokenize(delim)` for a one-character delimiter: the non-empty tokens
between separators, in order. -/
def Tokenize (s : String) (sep : Char) : List String :=
  ((tokenizeAux sep s.data []).filter (fun t => !t.isEmpty)).map String.mk

/-- Line 6: `arrNames = names.Tokenize(";")`. -/
def arrNames : List String := Tokenize names ';'

/-- Line 7: `nDie = arrNames->GetEntries()`. -/
def nDie : Int := arrNames.length

/-- The call `TObjArray::At(i)`: the entry at position `i`, a null pointer (`none`) outside
the array. -/
def At (arr : List String) (i : Int) : Option String :=
  if 0 ≤ i then arr.get? i.toNat else none

/-- The call `Form("%02d", n)`: decimal, zero-padded to width two. -/
def Form02d (n : Int) : String :=
  if 0 ≤ n ∧ n < 10 then "0" ++ toString n else toString n

/-- The locals `selectedPID`, `selectedCentrality`, `rejectionStep` after lines 15-126,
with the lines written to `cout` by the selector. -/
structure Selection where
  selectedPID : Int
  selectedCentrality : Int
  rejectionStep : Bool
  cout : List String
  deriving DecidableEq, Repr

/-- Lines 123-125: the three lines of the diagnostic. -/
def invalidConfiguration : List String :=
  [" =============================== ",
   " ==== INVALID CONFIGURATION ==== ",
   " =============================== "]

/-- Lines 15-17 and 44-126: the selector. The last branch `else Semi` is read as `else`. -/
def select (L : LMEECutLib) (cutDefinition : Int) : Selection :=
  let selectedPID : Int := -1
  let selectedCentrality : Int := -1
  let rejectionStep := false
  if cutDefinition = 0 then
    -- not yet implemented
    ⟨selectedPID, selectedCentrality, rejectionStep, []⟩
  else if cutDefinition = 1 then
    ⟨L.kPbPb2011TPCandTOFwide, L.kPbPb2011Central, false, []⟩
  else if cutDefinition = 2 then
    ⟨L.kPbPb2011TPCandTOFwide, L.kPbPb2011SemiCentral, false, []⟩
  else if cutDefinition = 3 then
    ⟨L.kPbPb2011TPCandTOFwide, L.kPbPb2011Peripheral, false, []⟩
  else if cutDefinition = 4 then
    ⟨L.kPbPb2011TPCandTOFwide, L.kPbPb2011Central, true, []⟩
  else if cutDefinition = 5 then
    ⟨L.kPbPb2011TPCandTOFwide, L.kPbPb2011SemiCentral, true, []⟩
  else if cutDefinition = 6 then
    ⟨L.kPbPb2011TPCandTOFwide, L.kPbPb2011Peripheral, true, []⟩
  else if cutDefinition = 7 then
    ⟨L.kPbPb2011TPCandTOF, L.kPbPb2011Central, false, []⟩
  else if cutDefinition = 8 then
    ⟨L.kPbPb2011TPCandTOF, L.kPbPb2011Central, true, []⟩
  else if cutDefinition = 9 then
    ⟨L.kPbPb2011TPCandTOFwide, L.kPbPb2011Central, false, []⟩
  else if cutDefinition = 10 then
    ⟨L.kPbPb2011TPCandTOFwide, L.kPbPb2011SemiCentral, false, []⟩
  else if cutDefinition = 11 then
    ⟨L.kPbPb2011TPCandTOFwide, L.kPbPb2011Peripheral, false, []⟩
  else if cutDefinition = 12 then
    ⟨L.kPbPb2011TPCandTOFwide, L.kPbPb2011Central, false, []⟩
  else if cutDefinition = 13 then
    ⟨L.kPbPb2011TPCandTOFwide, L.kPbPb2011SemiCentral, false, []⟩
  else if cutDefinition = 14 then
    ⟨L.kPbPb2011TPCandTOFwide, L.kPbPb2011Peripheral, false, []⟩
  else
    ⟨selectedPID, selectedCentrality, rejectionStep, invalidConfiguration⟩

/-- The (PID set, centrality set, rejection flag) triple chosen for an index. -/
def Selection.triple (s : Selection) : Int × Int × Bool :=
  (s.selectedPID, s.selectedCentrality, s.rejectionStep)

/-- The centrality words that occur in the entries of `names`. -/
inductive CentWord
  | Cent
  | SemiCent
  | Peri
  deriving DecidableEq, Repr

/-- Whether `pat` occurs in `s` as a contiguous block. -/
def occursIn (pat : List Char) : List Char → Bool
  | [] => pat.isEmpty
  | c :: cs => pat.isPrefixOf (c :: cs) || occursIn pat cs

/-- The centrality word of a name of the list: `SemiCent` when it occurs, else `Cent`, else
`Peri`. -/
def centralityWord (name : String) : Option CentWord :=
  if occursIn "SemiCent".data name.data then some CentWord.SemiCent
  else if occursIn "Cent".data name.data then some CentWord.Cent
  else if occursIn "Peri".data name.data then some CentWord.Peri
  else none

/-- The library enumerator a centrality word stands for. -/
def CentWord.enumerator (L : LMEECutLib) : CentWord → Int
  | CentWord.Cent => L.kPbPb2011Central
  | CentWord.SemiCent => L.kPbPb2011SemiCentral
  | CentWord.Peri => L.kPbPb2011Peripheral

/-- The centrality word of the entry of the names list at an index. -/
def wordAt (i : Int) : Option CentWord :=
  (At arrNames i).bind centralityWord

/-- Cut objects handed out by the cut library, named by the getter that builds them and
its arguments (the library itself is outside the sources). -/
inductive Cut
  | GetPIDCutsAna (selectedPID : Int)
  | GetPairCuts (selectedPID : Int)
  | GetPairCuts2 (selectedPID : Int) (variant : Bool)
  | GetCentralityCuts (selectedCentrality : Int)
  deriving DecidableEq, Repr

/-- Enumerators of `AliDielectronSignalMC` for the source of a leg. -/
inductive ESource
  | kSecondary
  | kFinalState
  deriving DecidableEq, Repr

/-- Enumerators of `AliDielectronSignalMC` for the relation of the mothers. -/
inductive EMothersRelation
  | kSame
  deriving DecidableEq, Repr

/-- A truth-classification rule, as the record of the setters the macro calls on it; a
field is `none` when the macro does not call its setter. -/
structure AliDielectronSignalMC where
  name : String
  title : String
  legPDGs : Option (Int × Int) := none
  checkBothChargesLegs : Option (Bool × Bool) := none
  legSources : Option (ESource × ESource) := none
  motherPDGs : Option (Int × Int) := none
  mothersRelation : Option EMothersRelation := none
  fillPureMCStep : Option Bool := none
  deriving DecidableEq, Repr

/-- The correlation-framework manager built by `InitCF`: its name and title, the variables
added (variable, leg flag) and the step switches. Bin counts and ranges are left out. -/
structure AliDielectronCF where
  name : String
  title : String
  vars : List (String × Bool) := []
  stepForMCtruth : Bool := false
  stepsForMCtruthOnly : Bool := false
  stepsForEachCut : Bool := false
  stepForAfterAllCuts : Bool := false
  stepsForSignal : Bool := false
  deriving DecidableEq, Repr

/-- The analysis container `AliDielectron`, as far as the macro writes to it. The histogram
manager is kept by its name and title only. -/
structure AliDielectron where
  name : String
  title : String
  hasMC : Bool := false
  preFilterAllSigns : Bool := false
  trackFilter : List Cut := []
  pairPreFilterLegs : List Cut := []
  pairPreFilter : List Cut := []
  pairFilter : List Cut := []
  eventFilter : List Cut := []
  mixingHandler : Option Int := none
  histogramManager : Option (String × String) := none
  cfManagerPair : Option AliDielectronCF := none
  signalsMC : List AliDielectronSignalMC := []
  deriving DecidableEq, Repr

/-- Lines 178-342, `InitHistograms`: attaches a histogram manager named after the
container. -/
def InitHistograms (die : AliDielectron) (_cutDefinition : Int) : AliDielectron :=
  { die with histogramManager := some (die.name, die.title) }

/-- Lines 415-422. -/
def eleFromConversions : AliDielectronSignalMC :=
  { name := "eleFromConversions", title := "conversion electrons",
    legPDGs := some (11, -11),
    checkBothChargesLegs := some (true, true),
    legSources := some (ESource.kSecondary, ESource.kSecondary),
    motherPDGs := some (22, 22) }

/-- Lines 425-433. -/
def dalitzDecays : AliDielectronSignalMC :=
  { name := "dalitzDecays", title := "dalitz Pairs",
    legPDGs := some (11, -11),
    checkBothChargesLegs := some (true, true),
    legSources := some (ESource.kSecondary, ESource.kSecondary),
    motherPDGs := some (111, 111),
    fillPureMCStep := some true }

/-- Lines 436-445. -/
def PhiDecays : AliDielectronSignalMC :=
  { name := "PhiDecays", title := "Phi Pairs",
    legPDGs := some (11, -11),
    checkBothChargesLegs := some (true, true),
    legSources := some (ESource.kFinalState, ESource.kFinalState),
    motherPDGs := some (333, 333),
    mothersRelation := some EMothersRelation.kSame,
    fillPureMCStep := some true }

/-- Lines 447-456. -/
def OmegaDecays : AliDielectronSignalMC :=
  { name := "OmegaDecays", title := "Omega Pairs",
    legPDGs := some (11, -11),
    checkBothChargesLegs := some (true, true),
    legSources := some (ESource.kFinalState, ESource.kFinalState),
    motherPDGs := some (223, 223),
    mothersRelation := some EMothersRelation.kSame,
    fillPureMCStep := some true }

/-- Lines 353-369: the pair and leg variables of the correlation manager. -/
def cfVariables : List (String × Bool) :=
  [("kP", false), ("kPt", false), ("kM", false), ("kY", false), ("kDeltaEta", false),
   ("kDeltaPhi", false), ("kPairType", false), ("kCentrality", false),
   ("kOpeningAngle", false), ("kPsiPair", false),
   ("kP", true), ("kPt", true), ("kITSsignal", true), ("kTPCsignal", true), ("kY", true)]

/-- Lines 374-376: the variables added when the global `MCenabled` is set. -/
def cfVariablesMC : List (String × Bool) :=
  [("kHaveSameMother", false), ("kPdgCode", true), ("kPdgCodeMother", true)]

/-- Lines 345-460, `InitCF`, reading the global `MCenabled`. -/
def InitCF (MCenabled : Bool) (die : AliDielectron) (_cutDefinition : Int) : AliDielectron :=
  let cf : AliDielectronCF := { name := die.name, title := die.title, vars := cfVariables }
  let cf := if MCenabled then
      { cf with stepForMCtruth := true, stepsForMCtruthOnly := true,
                vars := cf.vars ++ cfVariablesMC }
    else cf
  let cf := { cf with stepsForEachCut := true, stepForAfterAllCuts := true,
                      stepsForSignal := true }
  let die := { die with cfManagerPair := some cf }
  let die := { die with signalsMC := die.signalsMC ++ [eleFromConversions] }
  let die := { die with signalsMC := die.signalsMC ++ [dalitzDecays] }
  let die := { die with signalsMC := die.signalsMC ++ [PhiDecays] }
  { die with signalsMC := die.signalsMC ++ [OmegaDecays] }

/-- What a run of the macro leaves: the container returned, the lines written to `cout`
and the global `MCenabled`. -/
structure Run where
  die : AliDielectron
  cout : List String
  MCenabled : Bool
  deriving DecidableEq, Repr

/-- Lines 27-30: the name of the container. For an index below the number of entries the
entry `arrNames->At(cutDefinition)` is dereferenced; a null entry (`none`) is a fault. -/
def containerName (cutDefinition : Int) : Option String :=
  let name := Form02d cutDefinition
  if cutDefinition < arrNames.length then
    At arrNames cutDefinition
  else
    some name

/-- Lines 12-174, `ConfigLMEEPbPb2011`. The result is `none` when the run faults on the
null entry of the names array, else the run with the container that is returned. -/
def ConfigLMEEPbPb2011 (L : LMEECutLib) (cutDefinition : Int) (withMC : Bool)
    (CFenable : Bool) : Option Run :=
  let MCenabled := withMC
  match containerName cutDefinition with
  | none => none
  | some name =>
    let die : AliDielectron := { name := name, title := "Track cuts: " ++ name }
    let die := if MCenabled then { die with hasMC := true } else die
    let sel := select L cutDefinition
    let die := { die with preFilterAllSigns := true }
    let die :=
      if sel.rejectionStep then
        let die := { die with trackFilter := die.trackFilter ++ [Cut.GetPIDCutsAna sel.selectedPID] }
        let die := { die with
          pairPreFilterLegs := die.pairPreFilterLegs ++ [Cut.GetPIDCutsAna sel.selectedPID] }
        { die with pairPreFilter := die.pairPreFilter ++ [Cut.GetPairCuts sel.selectedPID] }
      else
        let die := { die with trackFilter := die.trackFilter ++ [Cut.GetPIDCutsAna sel.selectedPID] }
        let die :=
          if 9 ≤ cutDefinition ∧ cutDefinition ≤ 11 then
            { die with pairFilter := die.pairFilter ++ [Cut.GetPairCuts2 sel.selectedPID false] }
          else die
        if 12 ≤ cutDefinition ∧ cutDefinition ≤ 14 then
          { die with pairFilter := die.pairFilter ++ [Cut.GetPairCuts2 sel.selectedPID true] }
        else die
    let die := { die with
      eventFilter := die.eventFilter ++ [Cut.GetCentralityCuts sel.selectedCentrality] }
    let die := { die with mixingHandler := some sel.selectedPID }
    let die := InitHistograms die cutDefinition
    let die := if CFenable then InitCF MCenabled die cutDefinition else die
    some { die := die, cout := sel.cout, MCenabled := MCenabled }

/-- The real values of the enumerators in the cut library of the analysis train. -/
def LMCL : LMEECutLib :=
  { kPbPb2011TPCandTOF := 1, kPbPb2011TPCandTOFwide := 4,
    kPbPb2011Central := 0, kPbPb2011SemiCentral := 1, kPbPb2011Peripheral := 2 }

end LMEE

namespace AliPID

/-- Enumerators of `AliPID::EParticleType`, declared outside the sources; the cut names
`kPion` and `kKaon` only. -/
inductive EParticleType
  | kElectron
  | kMuon
  | kPion
  | kKaon
  | kProton
  | kPhoton
  | kPi0
  | kNeutron
  | kKaon0
  | kEleCon
  | kDeuteron
  | kTriton
  | kHe3
  | kAlpha
  | kUnknown
  deriving DecidableEq, Repr

end AliPID

namespace AliESDtrack

/-- Status bits of `AliESDtrack` tested by the cut. Their values are declared outside the
sources and are parameters of the embedding. -/
structure Flags where
  kTPCin : Nat
  kTPCrefit : Nat
  kITSrefit : Nat
  deriving DecidableEq, Repr

/-- The values of the three bits in the track class of the framework. -/
def flags : Flags := { kTPCin := 0x0010, kTPCrefit := 0x0040, kITSrefit := 0x0004 }

end AliESDtrack

/-- The PID response service, for the track under test: the signed deviations from the
expectation of a species hypothesis in the TPC and in the TOF. -/
structure AliPIDResponse where
  NumberOfSigmasTPC : AliPID.EParticleType → ℚ
  NumberOfSigmasTOF : AliPID.EParticleType → ℚ

/-- The getters of `AliVTrack` the cut reads. -/
structure AliVTrack where
  GetStatus : Nat
  GetTPCmomentum : ℚ
  P : ℚ
  deriving DecidableEq, Repr

/-- The object under test together with what the framework answers about it: `TargetOK(obj)`,
the cast of `fDaughter->GetRef()` to a track (`none` for a null pointer), the verdict of the
quality sub-cut `fCutQuality.IsSelected(obj)`, `fEvent->GetPIDResponse()` (`none` for a null
pointer) and `MatchTOF(track)`. -/
structure TObject where
  TargetOK : Bool
  GetRef : Option AliVTrack
  cutQualityIsSelected : Bool
  GetPIDResponse : Option AliPIDResponse
  MatchTOF : Bool

/-- The data members of the cut (the quality sub-cut is represented by its verdict). -/
structure AliRsnCutDaughterD0 where
  fNoPID : Bool
  fPID : AliPID.EParticleType
  fPionTPCPIDCut : ℚ
  fKaonTPCPIDCut : ℚ
  fPionTOFPIDCut : ℚ
  fKaonTOFPIDCut : ℚ
  fPtDepPIDCut : Bool
  deriving DecidableEq, Repr

namespace AliRsnCutDaughterD0

/-- Lines 18-45: the constructor. -/
def new (pid : AliPID.EParticleType) : AliRsnCutDaughterD0 :=
  { fNoPID := false, fPID := pid,
    fPionTPCPIDCut := 3, fKaonTPCPIDCut := 3, fPionTOFPIDCut := 3, fKaonTOFPIDCut := 3,
    fPtDepPIDCut := false }

/-- The literal `1E20`. -/
def c1E20 : ℚ := 10 ^ 20

/-- Lines 97-139: the PID decision, from the match flag, the two momenta and the two
absolute deviations, all finite numbers. For a deviation that is NaN see `pidDecisionNaN`:
the two differ at the test `nsTPC > 5.0` of line 112 only. -/
def pidDecision (c : AliRsnCutDaughterD0) (isTOF : Bool) (pTPC p nsTPC nsTOF : ℚ) : Bool :=
  let maxTPC : ℚ := c1E20
  let maxTOF : ℚ := c1E20
  if !c.fPtDepPIDCut then
    if isTOF then
      let maxTPC1 := if c.fPID = AliPID.EParticleType.kPion then c.fPionTPCPIDCut else maxTPC
      let maxTOF1 := if c.fPID = AliPID.EParticleType.kPion then c.fPionTOFPIDCut else maxTOF
      let maxTPC2 := if c.fPID = AliPID.EParticleType.kKaon then c.fKaonTPCPIDCut else maxTPC1
      let maxTOF2 := if c.fPID = AliPID.EParticleType.kKaon then c.fKaonTOFPIDCut else maxTOF1
      decide (nsTPC ≤ maxTPC2) && decide (nsTOF ≤ maxTOF2)
    else
      let maxTPC1 := if c.fPID = AliPID.EParticleType.kPion then c.fPionTPCPIDCut else maxTPC
      let maxTPC2 := if c.fPID = AliPID.EParticleType.kKaon then c.fKaonTPCPIDCut else maxTPC1
      decide (nsTPC ≤ maxTPC2)
  else
    if isTOF then
      if nsTPC > 5 then false
      else
        let maxTOF1 : ℚ := if p < 3 / 2 then 3 else 2
        decide (nsTOF ≤ maxTOF1)
    else
      -- `none` stands for the early `return kFALSE` of line 134
      let maxTPC1 : Option ℚ :=
        if pTPC ≤ 35 / 100 then
          some 5
        else if pTPC > 35 / 100 ∧ pTPC ≤ 1 / 2 then
          some 3
        else
          if c.fPID = AliPID.EParticleType.kPion then
            some 2
          else if c.fPID = AliPID.EParticleType.kKaon then
            if pTPC ≤ 7 / 10 then
              some 2
            else
              none
          else
            some maxTPC
      match maxTPC1 with
      | none => false
      | some m => decide (nsTPC ≤ m)

/-- A `Double_t` deviation as the PID response hands it out: a finite value, or the NaN of
the floating-point arithmetic. -/
inductive Deviation
  | val (q : ℚ)
  | nan
  deriving DecidableEq, Repr

/-- The call `TMath::Abs` on a deviation: NaN stays NaN. -/
def Deviation.Abs : Deviation → Deviation
  | Deviation.val q => Deviation.val (abs q)
  | Deviation.nan => Deviation.nan

/-- The test `x <= y` on doubles: false when `x` is NaN. -/
def Deviation.le : Deviation → ℚ → Bool
  | Deviation.val q, y => decide (q ≤ y)
  | Deviation.nan, _ => false

/-- The test `x > y` on doubles: false when `x` is NaN. -/
def Deviation.gt : Deviation → ℚ → Bool
  | Deviation.val q, y => decide (q > y)
  | Deviation.nan, _ => false

/-- Lines 97-139 again, with deviations that may be NaN: every test on a deviation is the
test of the source (`<=`, or `>` at line 112), false on NaN. On finite deviations it is
`pidDecision`. -/
def pidDecisionNaN (c : AliRsnCutDaughterD0) (isTOF : Bool) (pTPC p : ℚ)
    (nsTPC nsTOF : Deviation) : Bool :=
  let maxTPC : ℚ := c1E20
  let maxTOF : ℚ := c1E20
  if !c.fPtDepPIDCut then
    if isTOF then
      let maxTPC1 := if c.fPID = AliPID.EParticleType.kPion then c.fPionTPCPIDCut else maxTPC
      let maxTOF1 := if c.fPID = AliPID.EParticleType.kPion then c.fPionTOFPIDCut else maxTOF
      let maxTPC2 := if c.fPID = AliPID.EParticleType.kKaon then c.fKaonTPCPIDCut else maxTPC1
      let maxTOF2 := if c.fPID = AliPID.EParticleType.kKaon then c.fKaonTOFPIDCut else maxTOF1
      nsTPC.le maxTPC2 && nsTOF.le maxTOF2
    else
      let maxTPC1 := if c.fPID = AliPID.EParticleType.kPion then c.fPionTPCPIDCut else maxTPC
      let maxTPC2 := if c.fPID = AliPID.EParticleType.kKaon then c.fKaonTPCPIDCut else maxTPC1
      nsTPC.le maxTPC2
  else
    if isTOF then
      if nsTPC.gt 5 then false
      else
        let maxTOF1 : ℚ := if p < 3 / 2 then 3 else 2
        nsTOF.le maxTOF1
    else
      let maxTPC1 : Option ℚ :=
        if pTPC ≤ 35 / 100 then
          some 5
        else if pTPC > 35 / 100 ∧ pTPC ≤ 1 / 2 then
          some 3
        else
          if c.fPID = AliPID.EParticleType.kPion then
            some 2
          else if c.fPID = AliPID.EParticleType.kKaon then
            if pTPC ≤ 7 / 10 then
              some 2
            else
              none
          else
            some maxTPC
      match maxTPC1 with
      | none => false
      | some m => nsTPC.le m

/-- Lines 48-144: `IsSelected`. -/
def IsSelected (F : AliESDtrack.Flags) (c : AliRsnCutDaughterD0) (obj : TObject) : Bool :=
  if !obj.TargetOK then false
  else
    match obj.GetRef with
    | none => false
    | some track =>
      if track.GetStatus &&& F.kTPCin = 0 then false
      else if track.GetStatus &&& F.kTPCrefit = 0 then false
      else if track.GetStatus &&& F.kITSrefit = 0 then false
      else if !obj.cutQualityIsSelected then false
      else if c.fNoPID then true
      else
        match obj.GetPIDResponse with
        | none => false
        | some pid =>
          let isTOF := obj.MatchTOF
          let pTPC := track.GetTPCmomentum
          let p := track.P
          let nsTPC := abs (pid.NumberOfSigmasTPC c.fPID)
          let nsTOF := if isTOF then abs (pid.NumberOfSigmasTOF c.fPID) else c1E20
          pidDecision c isTOF pTPC p nsTPC nsTOF

/-- The pre-checks of lines 54-71 all pass: target, track reference, the three status bits,
the quality sub-cut. -/
def preChecks (F : AliESDtrack.Flags) (obj : TObject) : Bool :=
  obj.TargetOK &&
  (match obj.GetRef with
   | none => false
   | some track =>
     decide (track.GetStatus &&& F.kTPCin ≠ 0) && decide (track.GetStatus &&& F.kTPCrefit ≠ 0) &&
     decide (track.GetStatus &&& F.kITSrefit ≠ 0)) &&
  obj.cutQualityIsSelected

/-- The configured TPC maximum of the species hypothesis of a pion or kaon cut. -/
def speciesMaxTPC (c : AliRsnCutDaughterD0) : ℚ :=
  if c.fPID = AliPID.EParticleType.kPion then c.fPionTPCPIDCut else c.fKaonTPCPIDCut

/-- The configured TOF maximum of the species hypothesis of a pion or kaon cut. -/
def speciesMaxTOF (c : AliRsnCutDaughterD0) : ℚ :=
  if c.fPID = AliPID.EParticleType.kPion then c.fPionTOFPIDCut else c.fKaonTOFPIDCut

/-- A track with the three status bits set (and no other), for the examples. -/
def exampleTrack (pTPC p : ℚ) : AliVTrack :=
  { GetStatus := 0x0054, GetTPCmomentum := pTPC, P := p }

/-- A PID response that answers the same deviations for every species, for the examples. -/
def exampleResponse (nsTPC nsTOF : ℚ) : AliPIDResponse :=
  { NumberOfSigmasTPC := fun _ => nsTPC, NumberOfSigmasTOF := fun _ => nsTOF }

/-- An object that passes every pre-check, with an available PID response, for the
examples. -/
def exampleObject (isTOF : Bool) (pTPC p nsTPC nsTOF : ℚ) : TObject :=
  { TargetOK := true, GetRef := some (exampleTrack pTPC p), cutQualityIsSelected := true,
    GetPIDResponse := some (exampleResponse nsTPC nsTOF), MatchTOF := isTOF }

/-- The cut of a species in momentum-dependent mode, as left by the constructor and the
setter of the mode flag. -/
def newPtDep (pid : AliPID.EParticleType) : AliRsnCutDaughterD0 :=
  { new pid with fPtDepPIDCut := true }

end AliRsnCutDaughterD0

/-! ## The configuration macro -/

namespace LMEE

theorem At_arrNames_isSome (i : Int) (h0 : 0 ≤ i) (h1 : i < 15) :
    (At arrNames i).isSome = true := by
  interval_cases i <;> decide

theorem containerName_of_nonneg (i : Int) (h0 : 0 ≤ i) : ∃ n, containerName i = some n := by
  rw [← Option.isSome_iff_exists]
  unfold containerName
  have hlen : ((arrNames.length : Nat) : Int) = 15 := by decide
  rw [hlen]
  by_cases h : i < 15
  · simpa [h] using At_arrNames_isSome i h0 h
  · simp [h]

theorem containerName_of_large (i : Int) (h : 14 < i) : containerName i = some (Form02d i) := by
  unfold containerName
  have hlen : ((arrNames.length : Nat) : Int) = 15 := by decide
  rw [hlen]
  have : ¬ i < 15 := by omega
  simp [this]

theorem containerName_of_neg (i : Int) (h : i < 0) : containerName i = none := by
  unfold containerName
  have hlen : ((arrNames.length : Nat) : Int) = 15 := by decide
  rw [hlen]
  have h15 : i < 15 := by omega
  have h0 : ¬ 0 ≤ i := by omega
  simp [h15, At, h0]

theorem select_of_large (L : LMEECutLib) (i : Int) (h : 14 < i) :
    select L i = ⟨-1, -1, false, invalidConfiguration⟩ := by
  unfold select
  have e : ∀ k : Int, k ≤ 14 → ¬ i = k := fun k hk => by omega
  simp [e]

/-- C1: for every cut-definition index in 1..14 the selector chooses the documented
(PID set, centrality set, rejection flag) triple, and the centrality of the triple is the
one named by the centrality word (Cent, SemiCent, Peri) of the index's entry in the names
list. -/
theorem select_documented_triple (L : LMEECutLib) :
    (select L 1).triple = (L.kPbPb2011TPCandTOFwide, L.kPbPb2011Central, false) ∧
    (select L 9).triple = (L.kPbPb2011TPCandTOFwide, L.kPbPb2011Central, false) ∧
    (select L 12).triple = (L.kPbPb2011TPCandTOFwide, L.kPbPb2011Central, false) ∧
    (select L 2).triple = (L.kPbPb2011TPCandTOFwide, L.kPbPb2011SemiCentral, false) ∧
    (select L 10).triple = (L.kPbPb2011TPCandTOFwide, L.kPbPb2011SemiCentral, false) ∧
    (select L 13).triple = (L.kPbPb2011TPCandTOFwide, L.kPbPb2011SemiCentral, false) ∧
    (select L 3).triple = (L.kPbPb2011TPCandTOFwide, L.kPbPb2011Peripheral, false) ∧
    (select L 11).triple = (L.kPbPb2011TPCandTOFwide, L.kPbPb2011Peripheral, false) ∧
    (select L 14).triple = (L.kPbPb2011TPCandTOFwide, L.kPbPb2011Peripheral, false) ∧
    (select L 4).triple = (L.kPbPb2011TPCandTOFwide, L.kPbPb2011Central, true) ∧
    (select L 5).triple = (L.kPbPb2011TPCandTOFwide, L.kPbPb2011SemiCentral, true) ∧
    (select L 6).triple = (L.kPbPb2011TPCandTOFwide, L.kPbPb2011Peripheral, true) ∧
    (select L 7).triple = (L.kPbPb2011TPCandTOF, L.kPbPb2011Central, false) ∧
    (select L 8).triple = (L.kPbPb2011TPCandTOF, L.kPbPb2011Central, true) ∧
    ([1, 2, 3, 4, 5, 6, 7, 8, 9, 10, 11, 12, 13, 14].map wordAt =
      [some CentWord.Cent, some CentWord.SemiCent, some CentWord.Peri,
       some CentWord.Cent, some CentWord.SemiCent, some CentWord.Peri,
       some CentWord.Cent, some CentWord.Cent,
       some CentWord.Cent, some CentWord.SemiCent, some CentWord.Peri,
       some CentWord.Cent, some CentWord.SemiCent, some CentWord.Peri]) ∧
    ([1, 2, 3, 4, 5, 6, 7, 8, 9, 10, 11, 12, 13, 14].map
        (fun i => (wordAt i).map (CentWord.enumerator L)) =
      [1, 2, 3, 4, 5, 6, 7, 8, 9, 10, 11, 12, 13, 14].map
        (fun i => some (select L i).selectedCentrality)) := by
  refine ⟨rfl, rfl, rfl, rfl, rfl, rfl, rfl, rfl, rfl, rfl, rfl, rfl, rfl, rfl, ?_, ?_⟩
  · decide
  · have hw : [1, 2, 3, 4, 5, 6, 7, 8, 9, 10, 11, 12, 13, 14].map wordAt =
        [some CentWord.Cent, some CentWord.SemiCent, some CentWord.Peri,
         some CentWord.Cent, some CentWord.SemiCent, some CentWord.Peri,
         some CentWord.Cent, some CentWord.Cent,
         some CentWord.Cent, some CentWord.SemiCent, some CentWord.Peri,
         some CentWord.Cent, some CentWord.SemiCent, some CentWord.Peri] := by decide
    simp only [List.map_cons, List.map_nil, List.cons.injEq, and_true] at hw ⊢
    obtain ⟨h1, h2, h3, h4, h5, h6, h7, h8, h9, h10, h11, h12, h13, h14⟩ := hw
    rw [h1, h2, h3, h4, h5, h6, h7, h8, h9, h10, h11, h12, h13, h14]
    simp [CentWord.enumerator, select]

/-- C2, as stated, fails: at index 15 the macro emits the diagnostic and still builds and
returns a container, wired with the unassigned selectors -1; at index -1 the name lookup
faults on the null entry, so nothing is emitted. -/
theorem invalid_index_container_produced :
    ConfigLMEEPbPb2011 LMCL 15 false false =
      some { die := { name := "15", title := "Track cuts: 15",
                      preFilterAllSigns := true,
                      trackFilter := [Cut.GetPIDCutsAna (-1)],
                      eventFilter := [Cut.GetCentralityCuts (-1)],
                      mixingHandler := some (-1),
                      histogramManager := some ("15", "Track cuts: 15") },
             cout := invalidConfiguration, MCenabled := false } ∧
    ConfigLMEEPbPb2011 LMCL (-1) false false = none := by
  constructor <;> decide

/-- C2, amended: for every index above 14 the macro emits the INVALID CONFIGURATION
diagnostic and nevertheless builds and returns a container: it is named by the two-digit
index, its track filter and event filter are built from the unassigned selectors -1, and
the pair pre-filter, its leg filter and the pair filter stay empty. -/
theorem invalid_index_diagnostic_and_container (L : LMEECutLib) (i : Int)
    (withMC CFenable : Bool) (h : 14 < i) :
    ∃ r, ConfigLMEEPbPb2011 L i withMC CFenable = some r ∧
      r.cout = invalidConfiguration ∧
      r.die.name = Form02d i ∧
      r.die.hasMC = withMC ∧
      r.die.trackFilter = [Cut.GetPIDCutsAna (-1)] ∧
      r.die.pairPreFilterLegs = [] ∧ r.die.pairPreFilter = [] ∧ r.die.pairFilter = [] ∧
      r.die.eventFilter = [Cut.GetCentralityCuts (-1)] := by
  have h9 : ¬ (9 ≤ i ∧ i ≤ 11) := by omega
  have h12 : ¬ (12 ≤ i ∧ i ≤ 14) := by omega
  unfold ConfigLMEEPbPb2011
  rw [containerName_of_large i h, select_of_large L i h]
  cases withMC <;> cases CFenable <;> simp [h9, h12, InitHistograms, InitCF]

/-- Witness of C2 (amended) at index 15. -/
theorem invalid_index_diagnostic_and_container_witness :
    ∃ r, ConfigLMEEPbPb2011 LMCL 15 true false = some r ∧
      r.cout = invalidConfiguration ∧
      r.die.name = Form02d 15 ∧
      r.die.hasMC = true ∧
      r.die.trackFilter = [Cut.GetPIDCutsAna (-1)] ∧
      r.die.pairPreFilterLegs = [] ∧ r.die.pairPreFilter = [] ∧ r.die.pairFilter = [] ∧
      r.die.eventFilter = [Cut.GetCentralityCuts (-1)] :=
  invalid_index_diagnostic_and_container LMCL 15 true false (by decide)

/-- C3, as stated, fails: index 0 is left at the defaults (-1, -1, false) and no diagnostic
is emitted, by the selector and by the whole macro, which returns the container
`noPairing`. -/
theorem index_zero_silently_default :
    (select LMCL 0).triple = (-1, -1, false) ∧ (select LMCL 0).cout = [] ∧
    (ConfigLMEEPbPb2011 LMCL 0 false false).map (fun r => (r.die.name, r.cout)) =
      some ("noPairing", []) := by
  refine ⟨by decide, by decide, by decide⟩

/-- The lines written by a run of the macro are those written by the selector. -/
theorem cout_of_run (L : LMEECutLib) (i : Int) (withMC CFenable : Bool) (r : Run)
    (h : ConfigLMEEPbPb2011 L i withMC CFenable = some r) : r.cout = (select L i).cout := by
  unfold ConfigLMEEPbPb2011 at h
  cases hn : containerName i with
  | none => simp [hn] at h
  | some n =>
    simp only [hn, Option.some.injEq] at h
    subst h
    rfl

/-- C3, amended: for every index from 1 on the macro returns a container, and the index is
either one of 1..14, mapped without diagnostic to a triple made of library enumerators, or
above 14 and reported by the INVALID CONFIGURATION diagnostic with the selectors left at
(-1, -1, false); so, when no PID enumerator of the library is -1, an index from 1 on whose
PID set is left at -1 is reported. -/
theorem positive_index_mapped_or_reported (L : LMEECutLib) (i : Int)
    (withMC CFenable : Bool) (h : 0 < i) :
    ∃ r, ConfigLMEEPbPb2011 L i withMC CFenable = some r ∧
      ((i ≤ 14 ∧ r.cout = [] ∧
          ((select L i).selectedPID = L.kPbPb2011TPCandTOFwide ∨
           (select L i).selectedPID = L.kPbPb2011TPCandTOF) ∧
          ((select L i).selectedCentrality = L.kPbPb2011Central ∨
           (select L i).selectedCentrality = L.kPbPb2011SemiCentral ∨
           (select L i).selectedCentrality = L.kPbPb2011Peripheral)) ∨
        (14 < i ∧ r.cout = invalidConfiguration ∧ (select L i).triple = (-1, -1, false))) ∧
      (L.kPbPb2011TPCandTOFwide ≠ -1 → L.kPbPb2011TPCandTOF ≠ -1 →
        (select L i).selectedPID = -1 → r.cout = invalidConfiguration) := by
  obtain ⟨n, hn⟩ := containerName_of_nonneg i (le_of_lt h)
  have hsome : ∃ r, ConfigLMEEPbPb2011 L i withMC CFenable = some r := by
    unfold ConfigLMEEPbPb2011
    rw [hn]
    exact ⟨_, rfl⟩
  obtain ⟨r, hr⟩ := hsome
  refine ⟨r, hr, ?_⟩
  rw [cout_of_run L i withMC CFenable r hr]
  rcases lt_or_le 14 i with hbig | hsmall
  · rw [select_of_large L i hbig]
    exact ⟨Or.inr ⟨hbig, rfl, rfl⟩, fun _ _ _ => rfl⟩
  · have h1 : 1 ≤ i := by omega
    interval_cases i <;> refine ⟨Or.inl ?_, ?_⟩ <;> simp [select] <;>
      intro hw ht hp <;> first | exact absurd hp hw | exact absurd hp ht

/-- Witness of C3 (amended) at index 15. -/
theorem positive_index_mapped_or_reported_witness :
    (0 : Int) < 15 ∧
    (ConfigLMEEPbPb2011 LMCL 15 false false).map (fun r => r.cout) =
      some invalidConfiguration := by
  obtain ⟨r, hr, _, h2⟩ := positive_index_mapped_or_reported LMCL 15 false false (by decide)
  refine ⟨by decide, ?_⟩
  rw [hr]
  simpa using h2 (by decide) (by decide) (by decide)

end LMEE

/-! ## The D0 daughter cut -/

namespace AliRsnCutDaughterD0

theorem exampleObject_preChecks (isTOF : Bool) (pTPC p nsTPC nsTOF : ℚ) :
    preChecks AliESDtrack.flags (exampleObject isTOF pTPC p nsTPC nsTOF) = true := by
  simp [preChecks, exampleObject, exampleTrack, AliESDtrack.flags]

/-- Past the pre-checks, with PID required and the PID response available, `IsSelected` is
the PID decision on the absolute deviations. -/
theorem IsSelected_eq_pidDecision (F : AliESDtrack.Flags) (c : AliRsnCutDaughterD0)
    (obj : TObject) (track : AliVTrack) (pid : AliPIDResponse)
    (hpre : preChecks F obj = true) (hno : c.fNoPID = false)
    (href : obj.GetRef = some track) (hpid : obj.GetPIDResponse = some pid) :
    IsSelected F c obj =
      pidDecision c obj.MatchTOF track.GetTPCmomentum track.P
        (abs (pid.NumberOfSigmasTPC c.fPID))
        (if obj.MatchTOF then abs (pid.NumberOfSigmasTOF c.fPID) else c1E20) := by
  simp only [preChecks, href, Bool.and_eq_true, decide_eq_true_eq] at hpre
  obtain ⟨⟨ht, ⟨h1, h2⟩, h3⟩, hq⟩ := hpre
  simp [IsSelected, ht, href, hpid, hno, h1, h2, h3, hq]

/-- C4: in fixed-threshold mode, for a pion or kaon candidate past the pre-checks that needs
PID, with a TOF match the cut accepts iff both absolute deviations are within the configured
maxima of the species, and without a TOF match iff the absolute TPC deviation is within
the configured TPC maximum of the species; without a TOF match a TPC deviation equal to
the maximum is accepted and one unit above it is rejected. -/
theorem fixed_threshold_decision (F : AliESDtrack.Flags) (c : AliRsnCutDaughterD0)
    (obj : TObject) (track : AliVTrack) (pid : AliPIDResponse)
    (hpre : preChecks F obj = true) (hno : c.fNoPID = false)
    (href : obj.GetRef = some track) (hpid : obj.GetPIDResponse = some pid)
    (hmode : c.fPtDepPIDCut = false)
    (hsp : c.fPID = AliPID.EParticleType.kPion ∨ c.fPID = AliPID.EParticleType.kKaon) :
    (obj.MatchTOF = true →
      (IsSelected F c obj = true ↔
        abs (pid.NumberOfSigmasTPC c.fPID) ≤ speciesMaxTPC c ∧
        abs (pid.NumberOfSigmasTOF c.fPID) ≤ speciesMaxTOF c)) ∧
    (obj.MatchTOF = false →
      (IsSelected F c obj = true ↔ abs (pid.NumberOfSigmasTPC c.fPID) ≤ speciesMaxTPC c)) ∧
    (obj.MatchTOF = false → abs (pid.NumberOfSigmasTPC c.fPID) = speciesMaxTPC c →
      IsSelected F c obj = true) ∧
    (obj.MatchTOF = false → abs (pid.NumberOfSigmasTPC c.fPID) = speciesMaxTPC c + 1 →
      IsSelected F c obj = false) := by
  rw [IsSelected_eq_pidDecision F c obj track pid hpre hno href hpid]
  have hnoTOF : obj.MatchTOF = false →
      (pidDecision c obj.MatchTOF track.GetTPCmomentum track.P
          (abs (pid.NumberOfSigmasTPC c.fPID))
          (if obj.MatchTOF then abs (pid.NumberOfSigmasTOF c.fPID) else c1E20) = true ↔
        abs (pid.NumberOfSigmasTPC c.fPID) ≤ speciesMaxTPC c) := by
    intro hm
    rcases hsp with h | h <;> simp [pidDecision, speciesMaxTPC, hmode, hm, h]
  refine ⟨?_, hnoTOF, ?_, ?_⟩
  · intro hm
    rcases hsp with h | h <;> simp [pidDecision, speciesMaxTPC, speciesMaxTOF, hmode, hm, h]
  · intro hm he
    exact (hnoTOF hm).2 (le_of_eq he)
  · intro hm he
    have hn : ¬ abs (pid.NumberOfSigmasTPC c.fPID) ≤ speciesMaxTPC c := by
      rw [he]; linarith
    have := (hnoTOF hm).not.2 hn
    simpa using this

/-- Witness of C4: a kaon cut as constructed (maxima 3), no TOF match, TPC deviation -3. -/
theorem fixed_threshold_decision_witness :
    IsSelected AliESDtrack.flags (new AliPID.EParticleType.kKaon)
      (exampleObject false 1 1 (-3) 0) = true :=
  (fixed_threshold_decision AliESDtrack.flags (new AliPID.EParticleType.kKaon)
    (exampleObject false 1 1 (-3) 0) (exampleTrack 1 1) (exampleResponse (-3) 0)
    (exampleObject_preChecks false 1 1 (-3) 0) rfl rfl rfl rfl (Or.inr rfl)).2.2.1 rfl
    (by norm_num [exampleResponse, speciesMaxTPC, new])

/-- On deviations that are finite numbers, in momentum-dependent mode with a TOF match, for
a candidate past the pre-checks that needs PID, the cut accepts iff the absolute TPC
deviation is at most 5 and the absolute TOF deviation is at most 3 for a total momentum
below 1.5 and at most 2 above it; the decision is the same for every species, TPC momentum
and choice of the four configured maxima; a TPC deviation of 5.001 is rejected whatever the
TOF deviation, and one of exactly 5 leaves the decision to the TOF check. -/
theorem ptdep_tof_decision (F : AliESDtrack.Flags) (c : AliRsnCutDaughterD0)
    (obj : TObject) (track : AliVTrack) (pid : AliPIDResponse)
    (hpre : preChecks F obj = true) (hno : c.fNoPID = false)
    (href : obj.GetRef = some track) (hpid : obj.GetPIDResponse = some pid)
    (hmode : c.fPtDepPIDCut = true) (hm : obj.MatchTOF = true) :
    (track.P < 3 / 2 →
      (IsSelected F c obj = true ↔
        abs (pid.NumberOfSigmasTPC c.fPID) ≤ 5 ∧ abs (pid.NumberOfSigmasTOF c.fPID) ≤ 3)) ∧
    (3 / 2 < track.P →
      (IsSelected F c obj = true ↔
        abs (pid.NumberOfSigmasTPC c.fPID) ≤ 5 ∧ abs (pid.NumberOfSigmasTOF c.fPID) ≤ 2)) ∧
    (abs (pid.NumberOfSigmasTPC c.fPID) = 5001 / 1000 → IsSelected F c obj = false) ∧
    (abs (pid.NumberOfSigmasTPC c.fPID) = 5 →
      (IsSelected F c obj = true ↔
        abs (pid.NumberOfSigmasTOF c.fPID) ≤ if track.P < 3 / 2 then 3 else 2)) ∧
    (∀ (c2 : AliRsnCutDaughterD0) (pTPC2 nsTPC nsTOF : ℚ), c2.fPtDepPIDCut = true →
      pidDecision c2 true pTPC2 track.P nsTPC nsTOF =
        pidDecision c true track.GetTPCmomentum track.P nsTPC nsTOF) := by
  rw [IsSelected_eq_pidDecision F c obj track pid hpre hno href hpid]
  refine ⟨?_, ?_, ?_, ?_, ?_⟩
  · intro hp
    simp [pidDecision, hmode, hm, hp]
  · intro hp
    have hp2 : ¬ track.P < 3 / 2 := not_lt.2 (le_of_lt hp)
    simp [pidDecision, hmode, hm, hp2]
  · intro he
    simp only [pidDecision, hmode, hm, he]
    norm_num
  · intro he
    simp only [pidDecision, hmode, hm, he]
    by_cases hp : track.P < 3 / 2 <;> simp [hp]
  · intro c2 pTPC2 nsTPC nsTOF h2
    simp [pidDecision, hmode, h2]

/-- An instance of `ptdep_tof_decision`: a pion cut in momentum-dependent mode, TOF match,
total momentum 1, TPC deviation 5 and TOF deviation 3. -/
theorem ptdep_tof_decision_witness :
    IsSelected AliESDtrack.flags (newPtDep AliPID.EParticleType.kPion)
      (exampleObject true 1 1 5 3) = true :=
  ((ptdep_tof_decision AliESDtrack.flags (newPtDep AliPID.EParticleType.kPion)
    (exampleObject true 1 1 5 3) (exampleTrack 1 1) (exampleResponse 5 3)
    (exampleObject_preChecks true 1 1 5 3) rfl rfl rfl rfl rfl).1
    (by norm_num [exampleTrack])).2 (by norm_num [exampleResponse])

/-- On finite deviations the decision with NaN-aware tests is `pidDecision`. -/
theorem pidDecisionNaN_val (c : AliRsnCutDaughterD0) (isTOF : Bool) (pTPC p a b : ℚ) :
    pidDecisionNaN c isTOF pTPC p (Deviation.val a) (Deviation.val b) =
      pidDecision c isTOF pTPC p a b := by
  simp [pidDecisionNaN, pidDecision, Deviation.le, Deviation.gt]

/-- C5, defect of the code: in momentum-dependent mode with a TOF match, a pion candidate
at total momentum 1 whose TPC deviation is NaN and whose TOF deviation is 0 is accepted,
although its absolute TPC deviation is not at most 5: the test `nsTPC > 5.0` of line 112 is
false on NaN. The same candidate is rejected in fixed-threshold mode and, without a TOF
match, in momentum-dependent mode, where the TPC deviation is tested with `<=`. -/
theorem nan_TPC_deviation_accepted :
    pidDecisionNaN (newPtDep AliPID.EParticleType.kPion) true 1 1
      (Deviation.Abs Deviation.nan) (Deviation.Abs (Deviation.val 0)) = true ∧
    (Deviation.Abs Deviation.nan).le 5 = false ∧
    pidDecisionNaN (new AliPID.EParticleType.kPion) true 1 1
      (Deviation.Abs Deviation.nan) (Deviation.Abs (Deviation.val 0)) = false ∧
    pidDecisionNaN (newPtDep AliPID.EParticleType.kPion) false 1 1
      (Deviation.Abs Deviation.nan) (Deviation.val c1E20) = false := by
  refine ⟨?_, rfl, ?_, ?_⟩
  · simp only [pidDecisionNaN, newPtDep, new, Deviation.Abs, Deviation.gt]
    norm_num [Deviation.le]
  · simp [pidDecisionNaN, new, Deviation.Abs, Deviation.le]
  · simp only [pidDecisionNaN, newPtDep, new, Deviation.Abs]
    norm_num [Deviation.le]

/-- C6, as stated, fails: a TOF-matched candidate in momentum-dependent mode with total
momentum exactly 1.5, TPC deviation 1 and TOF deviation 2.5 passes the pre-checks and is
rejected, since at 1.5 the TOF threshold is 2 and not 3. -/
theorem tof_breakpoint_goes_to_upper_bucket :
    preChecks AliESDtrack.flags (exampleObject true 1 (3 / 2) 1 (5 / 2)) = true ∧
    IsSelected AliESDtrack.flags (newPtDep AliPID.EParticleType.kPion)
      (exampleObject true 1 (3 / 2) 1 (5 / 2)) = false := by
  refine ⟨exampleObject_preChecks _ _ _ _ _, ?_⟩
  rw [IsSelected_eq_pidDecision AliESDtrack.flags _ _ (exampleTrack 1 (3 / 2))
    (exampleResponse 1 (5 / 2)) (exampleObject_preChecks _ _ _ _ _) rfl rfl rfl]
  simp only [pidDecision, newPtDep, new, exampleObject, exampleTrack, exampleResponse]
  norm_num [abs_of_pos]

/-- C6, amended: in momentum-dependent mode the three breakpoints of the TPC momentum (0.35,
0.5, and 0.7 for kaons) are inclusive to the lower bucket, so without a TOF match a candidate
at the breakpoint is judged against 5, 3 and 2; the breakpoint of the total momentum is not:
a TOF-matched candidate at exactly 1.5 is judged against the TOF threshold 2 of the upper
bucket. -/
theorem breakpoint_buckets (F : AliESDtrack.Flags) (c : AliRsnCutDaughterD0)
    (obj : TObject) (track : AliVTrack) (pid : AliPIDResponse)
    (hpre : preChecks F obj = true) (hno : c.fNoPID = false)
    (href : obj.GetRef = some track) (hpid : obj.GetPIDResponse = some pid)
    (hmode : c.fPtDepPIDCut = true) :
    (obj.MatchTOF = false → track.GetTPCmomentum = 35 / 100 →
      (IsSelected F c obj = true ↔ abs (pid.NumberOfSigmasTPC c.fPID) ≤ 5)) ∧
    (obj.MatchTOF = false → track.GetTPCmomentum = 1 / 2 →
      (IsSelected F c obj = true ↔ abs (pid.NumberOfSigmasTPC c.fPID) ≤ 3)) ∧
    (obj.MatchTOF = false → c.fPID = AliPID.EParticleType.kKaon →
      track.GetTPCmomentum = 7 / 10 →
      (IsSelected F c obj = true ↔ abs (pid.NumberOfSigmasTPC c.fPID) ≤ 2)) ∧
    (obj.MatchTOF = true → track.P = 3 / 2 →
      (IsSelected F c obj = true ↔
        abs (pid.NumberOfSigmasTPC c.fPID) ≤ 5 ∧ abs (pid.NumberOfSigmasTOF c.fPID) ≤ 2)) := by
  rw [IsSelected_eq_pidDecision F c obj track pid hpre hno href hpid]
  refine ⟨?_, ?_, ?_, ?_⟩
  · intro hm hp
    simp [pidDecision, hmode, hm, hp]
  · intro hm hp
    simp only [pidDecision, hmode, hm, hp]
    norm_num
  · intro hm hk hp
    simp only [pidDecision, hmode, hm, hp, hk]
    norm_num
  · intro hm hp
    simp only [pidDecision, hmode, hm, hp]
    norm_num

/-- Witness of C6 (amended): a TOF-matched pion candidate at total momentum 1.5 with TPC
deviation 1 and TOF deviation 2 is accepted. -/
theorem breakpoint_buckets_witness :
    IsSelected AliESDtrack.flags (newPtDep AliPID.EParticleType.kPion)
      (exampleObject true 1 (3 / 2) 1 2) = true :=
  ((breakpoint_buckets AliESDtrack.flags (newPtDep AliPID.EParticleType.kPion)
    (exampleObject true 1 (3 / 2) 1 2) (exampleTrack 1 (3 / 2)) (exampleResponse 1 2)
    (exampleObject_preChecks true 1 (3 / 2) 1 2) rfl rfl rfl rfl).2.2.2 rfl rfl).2
    (by norm_num [exampleResponse])

/-- C7: in momentum-dependent mode without a TOF match, for a pion or kaon candidate past
the pre-checks that needs PID, the cut decides on the TPC momentum and not on the total
momentum: it accepts iff the absolute TPC deviation is at most 5 up to 0.35, at most 3 in
(0.35, 0.5], at most 2 above 0.5 for pions and in (0.5, 0.7] for kaons, and rejects every
kaon above 0.7; a kaon at 0.7 with deviation 2 is accepted, a kaon at 0.70001 is rejected. -/
theorem ptdep_notof_decision (F : AliESDtrack.Flags) (c : AliRsnCutDaughterD0)
    (obj : TObject) (track : AliVTrack) (pid : AliPIDResponse)
    (hpre : preChecks F obj = true) (hno : c.fNoPID = false)
    (href : obj.GetRef = some track) (hpid : obj.GetPIDResponse = some pid)
    (hmode : c.fPtDepPIDCut = true) (hm : obj.MatchTOF = false) :
    (track.GetTPCmomentum ≤ 35 / 100 →
      (IsSelected F c obj = true ↔ abs (pid.NumberOfSigmasTPC c.fPID) ≤ 5)) ∧
    (35 / 100 < track.GetTPCmomentum → track.GetTPCmomentum ≤ 1 / 2 →
      (IsSelected F c obj = true ↔ abs (pid.NumberOfSigmasTPC c.fPID) ≤ 3)) ∧
    (c.fPID = AliPID.EParticleType.kPion → 1 / 2 < track.GetTPCmomentum →
      (IsSelected F c obj = true ↔ abs (pid.NumberOfSigmasTPC c.fPID) ≤ 2)) ∧
    (c.fPID = AliPID.EParticleType.kKaon → 1 / 2 < track.GetTPCmomentum →
      track.GetTPCmomentum ≤ 7 / 10 →
      (IsSelected F c obj = true ↔ abs (pid.NumberOfSigmasTPC c.fPID) ≤ 2)) ∧
    (c.fPID = AliPID.EParticleType.kKaon → 7 / 10 < track.GetTPCmomentum →
      IsSelected F c obj = false) ∧
    (c.fPID = AliPID.EParticleType.kKaon → track.GetTPCmomentum = 7 / 10 →
      abs (pid.NumberOfSigmasTPC c.fPID) = 2 → IsSelected F c obj = true) ∧
    (c.fPID = AliPID.EParticleType.kKaon → track.GetTPCmomentum = 70001 / 100000 →
      IsSelected F c obj = false) ∧
    (∀ p2 : ℚ, IsSelected F c { obj with GetRef := some { track with P := p2 } } =
      IsSelected F c obj) := by
  have hp2 : ∀ p2 : ℚ, IsSelected F c { obj with GetRef := some { track with P := p2 } } =
      IsSelected F c obj := by
    intro p2
    simp [IsSelected, href, hpid, hm, pidDecision, hmode]
  rw [IsSelected_eq_pidDecision F c obj track pid hpre hno href hpid]
  have hkp : AliPID.EParticleType.kKaon ≠ AliPID.EParticleType.kPion := by decide
  refine ⟨?_, ?_, ?_, ?_, ?_, ?_, ?_, ?_⟩
  · intro h1
    simp [pidDecision, hmode, hm, h1]
  · intro h1 h2
    have h3 : ¬ track.GetTPCmomentum ≤ 35 / 100 := not_le.2 h1
    simp only [pidDecision, hmode, hm, h1, h2, h3, and_self, if_true, if_false,
      Bool.not_true, Bool.false_eq_true]
    simp
  · intro hk h1
    have h3 : ¬ track.GetTPCmomentum ≤ 35 / 100 := by
      intro h; linarith
    have h4 : ¬ track.GetTPCmomentum ≤ 1 / 2 := not_le.2 h1
    simp only [pidDecision, hmode, hm, h3, h4, hk, and_false, if_true, if_false,
      Bool.not_true, Bool.false_eq_true]
    simp
  · intro hk h1 h2
    have h3 : ¬ track.GetTPCmomentum ≤ 35 / 100 := by
      intro h; linarith
    have h4 : ¬ track.GetTPCmomentum ≤ 1 / 2 := not_le.2 h1
    simp only [pidDecision, hmode, hm, h3, h4, hk, hkp, h2, and_false, if_true, if_false,
      Bool.not_true, Bool.false_eq_true]
    simp
  · intro hk h1
    have h3 : ¬ track.GetTPCmomentum ≤ 35 / 100 := by
      intro h; linarith
    have h4 : ¬ track.GetTPCmomentum ≤ 1 / 2 := by
      intro h; linarith
    have h5 : ¬ track.GetTPCmomentum ≤ 7 / 10 := not_le.2 h1
    simp only [pidDecision, hmode, hm, h3, h4, hk, hkp, h5, and_false, if_true, if_false,
      Bool.not_true, Bool.false_eq_true]
  · intro hk h1 h2
    rw [hk] at h2
    simp only [pidDecision, hmode, hm, hk, h1]
    norm_num [h2]
  · intro hk h1
    simp only [pidDecision, hmode, hm, hk, h1]
    norm_num [hkp]
  · intro p2
    rw [hp2 p2, IsSelected_eq_pidDecision F c obj track pid hpre hno href hpid]

/-- Witness of C7: a kaon cut in momentum-dependent mode, no TOF match, TPC momentum 0.7 and
TPC deviation 2. -/
theorem ptdep_notof_decision_witness :
    IsSelected AliESDtrack.flags (newPtDep AliPID.EParticleType.kKaon)
      (exampleObject false (7 / 10) 1 2 0) = true :=
  (ptdep_notof_decision AliESDtrack.flags (newPtDep AliPID.EParticleType.kKaon)
    (exampleObject false (7 / 10) 1 2 0) (exampleTrack (7 / 10) 1) (exampleResponse 2 0)
    (exampleObject_preChecks false (7 / 10) 1 2 0) rfl rfl rfl rfl rfl).2.2.2.2.2.1
    rfl rfl (by norm_num [exampleResponse])

/-- C8, as stated, fails: with the no-PID flag set, a candidate that passes the pre-checks
is accepted although the PID response of the event is unavailable. -/
theorem noPID_accepts_without_response :
    IsSelected AliESDtrack.flags { new AliPID.EParticleType.kPion with fNoPID := true }
      { exampleObject false 1 1 0 0 with GetPIDResponse := none } = true := by
  simp [IsSelected, exampleObject, exampleTrack, AliESDtrack.flags, new]

/-- C8, amended: for every candidate and every configuration in which the no-PID flag is
not set (every species, every mode, every maxima), if the PID response of the event is
unavailable, the cut rejects the candidate. -/
theorem missing_response_rejected (F : AliESDtrack.Flags) (c : AliRsnCutDaughterD0)
    (obj : TObject) (hno : c.fNoPID = false) (hpid : obj.GetPIDResponse = none) :
    IsSelected F c obj = false := by
  unfold IsSelected
  cases hr : obj.GetRef with
  | none => simp
  | some track => simp [hno, hpid]

/-- Witness of C8 (amended): a pion cut as constructed and a candidate past the pre-checks
with no PID response. -/
theorem missing_response_rejected_witness :
    IsSelected AliESDtrack.flags (new AliPID.EParticleType.kPion)
      { exampleObject false 1 1 0 0 with GetPIDResponse := none } = false :=
  missing_response_rejected AliESDtrack.flags (new AliPID.EParticleType.kPion)
    { exampleObject false 1 1 0 0 with GetPIDResponse := none } rfl rfl

/-- C9: for every candidate and every configuration, acceptance implies that the target
check passed, the track reference is present, each of the three status bits kTPCin,
kTPCrefit and kITSrefit is set in the track status, and the quality sub-cut accepted. -/
theorem accepted_passed_preChecks (F : AliESDtrack.Flags) (c : AliRsnCutDaughterD0)
    (obj : TObject) (h : IsSelected F c obj = true) :
    obj.TargetOK = true ∧
    (∃ track, obj.GetRef = some track ∧
      track.GetStatus &&& F.kTPCin ≠ 0 ∧
      track.GetStatus &&& F.kTPCrefit ≠ 0 ∧
      track.GetStatus &&& F.kITSrefit ≠ 0) ∧
    obj.cutQualityIsSelected = true := by
  unfold IsSelected at h
  cases ht : obj.TargetOK with
  | false => simp [ht] at h
  | true =>
    cases hr : obj.GetRef with
    | none => simp [ht, hr] at h
    | some track =>
      simp only [ht, hr] at h
      by_cases h1 : track.GetStatus &&& F.kTPCin = 0
      · simp [h1] at h
      by_cases h2 : track.GetStatus &&& F.kTPCrefit = 0
      · simp [h1, h2] at h
      by_cases h3 : track.GetStatus &&& F.kITSrefit = 0
      · simp [h1, h2, h3] at h
      cases hq : obj.cutQualityIsSelected with
      | false => simp [h1, h2, h3, hq] at h
      | true => exact ⟨rfl, ⟨track, rfl, h1, h2, h3⟩, rfl⟩

/-- Witness of C9: an accepted candidate in no-PID mode. -/
theorem accepted_passed_preChecks_witness :
    (exampleObject false 1 1 0 0).TargetOK = true ∧
    (∃ track, (exampleObject false 1 1 0 0).GetRef = some track ∧
      track.GetStatus &&& AliESDtrack.flags.kTPCin ≠ 0 ∧
      track.GetStatus &&& AliESDtrack.flags.kTPCrefit ≠ 0 ∧
      track.GetStatus &&& AliESDtrack.flags.kITSrefit ≠ 0) ∧
    (exampleObject false 1 1 0 0).cutQualityIsSelected = true :=
  accepted_passed_preChecks AliESDtrack.flags
    { new AliPID.EParticleType.kPion with fNoPID := true } (exampleObject false 1 1 0 0)
    (by simp [IsSelected, exampleObject, exampleTrack, AliESDtrack.flags, new])

/-- With the no-PID flag set, `IsSelected` is the conjunction of the pre-checks. -/
theorem IsSelected_noPID (F : AliESDtrack.Flags) (c : AliRsnCutDaughterD0) (obj : TObject)
    (hno : c.fNoPID = true) : IsSelected F c obj = preChecks F obj := by
  unfold IsSelected preChecks
  cases ht : obj.TargetOK with
  | false => simp
  | true =>
    cases hr : obj.GetRef with
    | none => simp
    | some track =>
      by_cases h1 : track.GetStatus &&& F.kTPCin = 0
      · simp [h1]
      by_cases h2 : track.GetStatus &&& F.kTPCrefit = 0
      · simp [h1, h2]
      by_cases h3 : track.GetStatus &&& F.kITSrefit = 0
      · simp [h1, h2, h3]
      cases hq : obj.cutQualityIsSelected <;> simp [h1, h2, h3, hno]

/-- The pre-checks read the target verdict, the status word of the track and the verdict of
the quality sub-cut only. -/
theorem preChecks_congr (F : AliESDtrack.Flags) (obj obj2 : TObject)
    (ht : obj2.TargetOK = obj.TargetOK)
    (hs : obj2.GetRef.map AliVTrack.GetStatus = obj.GetRef.map AliVTrack.GetStatus)
    (hq : obj2.cutQualityIsSelected = obj.cutQualityIsSelected) :
    preChecks F obj2 = preChecks F obj := by
  unfold preChecks
  rw [ht, hq]
  cases h2 : obj2.GetRef with
  | none =>
    cases h1 : obj.GetRef with
    | none => rfl
    | some t1 => simp [h1, h2] at hs
  | some t2 =>
    cases h1 : obj.GetRef with
    | none => simp [h1, h2] at hs
    | some t1 =>
      simp only [h1, h2, Option.map_some', Option.some.injEq] at hs
      simp only [hs]

/-- C12: with the no-PID flag set, the result of `IsSelected` is the conjunction of the
pre-checks (target, track reference, the three status bits, quality sub-cut), and it is the
same for any two runs with the flag set that agree on the target verdict, the status word
of the track and the quality verdict, whatever their species, mode flag, four maxima, TOF
match, momenta, deviations and availability of the PID response. -/
theorem noPID_result_is_preChecks (F : AliESDtrack.Flags) (c : AliRsnCutDaughterD0)
    (obj : TObject) (hno : c.fNoPID = true) :
    IsSelected F c obj = preChecks F obj ∧
    (∀ (c2 : AliRsnCutDaughterD0) (obj2 : TObject), c2.fNoPID = true →
      obj2.TargetOK = obj.TargetOK →
      obj2.GetRef.map AliVTrack.GetStatus = obj.GetRef.map AliVTrack.GetStatus →
      obj2.cutQualityIsSelected = obj.cutQualityIsSelected →
      IsSelected F c2 obj2 = IsSelected F c obj) := by
  refine ⟨IsSelected_noPID F c obj hno, ?_⟩
  intro c2 obj2 hno2 ht hs hq
  rw [IsSelected_noPID F c obj hno, IsSelected_noPID F c2 obj2 hno2,
    preChecks_congr F obj obj2 ht hs hq]

/-- Witness of C12: a pion cut in fixed-threshold mode on a candidate without PID response
and a kaon cut in momentum-dependent mode with other maxima on a TOF-matched candidate with
other momenta and deviations give the same result, both with the no-PID flag set. -/
theorem noPID_result_is_preChecks_witness :
    IsSelected AliESDtrack.flags
        { newPtDep AliPID.EParticleType.kKaon with fNoPID := true, fKaonTPCPIDCut := 1 }
        (exampleObject true 2 3 100 100) =
      IsSelected AliESDtrack.flags { new AliPID.EParticleType.kPion with fNoPID := true }
        { exampleObject false 1 1 0 0 with GetPIDResponse := none } :=
  (noPID_result_is_preChecks AliESDtrack.flags
    { new AliPID.EParticleType.kPion with fNoPID := true }
    { exampleObject false 1 1 0 0 with GetPIDResponse := none } rfl).2
    { newPtDep AliPID.EParticleType.kKaon with fNoPID := true, fKaonTPCPIDCut := 1 }
    (exampleObject true 2 3 100 100) rfl rfl rfl rfl

/-- C13: for a species hypothesis that is neither pion nor kaon, on a candidate past the
pre-checks that needs PID, both limits stay at 1E20 in fixed-threshold mode, so the cut
accepts iff the absolute TPC deviation is at most 1E20 (and, with a TOF match, the absolute
TOF deviation too); in momentum-dependent mode without a TOF match and with a TPC momentum
above 0.5 the TPC limit stays 1E20 as well, so neither a 2-sigma cut nor the 0.7 cut-off
applies; and the four configured maxima never change the result. -/
theorem other_species_ignore_maxima (F : AliESDtrack.Flags) (c : AliRsnCutDaughterD0)
    (obj : TObject) (track : AliVTrack) (pid : AliPIDResponse)
    (hpre : preChecks F obj = true) (hno : c.fNoPID = false)
    (href : obj.GetRef = some track) (hpid : obj.GetPIDResponse = some pid)
    (hpi : c.fPID ≠ AliPID.EParticleType.kPion) (hka : c.fPID ≠ AliPID.EParticleType.kKaon) :
    (c.fPtDepPIDCut = false → obj.MatchTOF = true →
      (IsSelected F c obj = true ↔
        abs (pid.NumberOfSigmasTPC c.fPID) ≤ c1E20 ∧
        abs (pid.NumberOfSigmasTOF c.fPID) ≤ c1E20)) ∧
    (c.fPtDepPIDCut = false → obj.MatchTOF = false →
      (IsSelected F c obj = true ↔ abs (pid.NumberOfSigmasTPC c.fPID) ≤ c1E20)) ∧
    (c.fPtDepPIDCut = true → obj.MatchTOF = false → 1 / 2 < track.GetTPCmomentum →
      (IsSelected F c obj = true ↔ abs (pid.NumberOfSigmasTPC c.fPID) ≤ c1E20)) ∧
    (∀ a b d e : ℚ,
      IsSelected F { c with fPionTPCPIDCut := a, fKaonTPCPIDCut := b,
                            fPionTOFPIDCut := d, fKaonTOFPIDCut := e } obj =
        IsSelected F c obj) := by
  have hind : ∀ a b d e : ℚ,
      IsSelected F { c with fPionTPCPIDCut := a, fKaonTPCPIDCut := b,
                            fPionTOFPIDCut := d, fKaonTOFPIDCut := e } obj =
        IsSelected F c obj := by
    intro a b d e
    simp [IsSelected, href, hpid, pidDecision, hpi, hka]
  rw [IsSelected_eq_pidDecision F c obj track pid hpre hno href hpid]
  refine ⟨?_, ?_, ?_, ?_⟩
  · intro hmode hm
    simp [pidDecision, hmode, hm, hpi, hka]
  · intro hmode hm
    simp [pidDecision, hmode, hm, hpi, hka]
  · intro hmode hm hp
    have h3 : ¬ track.GetTPCmomentum ≤ 35 / 100 := by
      intro h; linarith
    have h4 : ¬ track.GetTPCmomentum ≤ 1 / 2 := not_le.2 hp
    simp only [pidDecision, hmode, hm, h3, h4, hpi, hka, and_false, if_true, if_false,
      Bool.not_true, Bool.false_eq_true]
    simp
  · intro a b d e
    rw [hind a b d e, IsSelected_eq_pidDecision F c obj track pid hpre hno href hpid]

/-- Witness of C13: a proton cut in momentum-dependent mode, no TOF match, TPC momentum 1
and TPC deviation 100 is accepted. -/
theorem other_species_ignore_maxima_witness :
    IsSelected AliESDtrack.flags (newPtDep AliPID.EParticleType.kProton)
      (exampleObject false 1 1 100 0) = true :=
  ((other_species_ignore_maxima AliESDtrack.flags (newPtDep AliPID.EParticleType.kProton)
    (exampleObject false 1 1 100 0) (exampleTrack 1 1) (exampleResponse 100 0)
    (exampleObject_preChecks false 1 1 100 0) rfl rfl rfl (by decide) (by decide)).2.2.1
    rfl rfl (by norm_num [exampleTrack])).2 (by norm_num [exampleResponse, c1E20])

end AliRsnCutDaughterD0
